import Mathlib

/-!
Verification of the `infer_yolo_v8` plugin (files `infer_yolo_v8_process.py`
and `infer_yolo_v8_widget.py`) against its natural-language specification.

The Python code is shallowly embedded:
* Python `str` values are `String`, `bool` is `Bool`, `int` is `Int`.
* Python `float` values are modelled as exact rationals `ℚ`; every float
  literal occurring in the code ("0.25", "0.7") is exactly representable,
  and the only float arithmetic performed by the code is subtraction of
  box corners, which is modelled exactly.  Rationals are always built with
  `Rat.divInt` (via `pyFloat`) so that concrete values reduce in the kernel.
* The host parameter dictionary (a string-to-string map) is an association
  list `PMap`; absent keys surface as `none` from `List.lookup`.
* Fallible Python operations (`int(s)`, `float(s)`, `strtobool(s)`, key
  access) are modelled with `Option`; an exception anywhere inside
  `set_values` is modelled as the whole call returning `none`.
* The external detector library (`ultralytics.YOLO`) is opaque: a loaded
  model is identified by the weights argument passed to its constructor,
  and `predict` is an arbitrary function supplied to `run` as an oracle.
* `torch.cuda.is_available()` is an environment fact, passed as a `Bool`
  argument to the constructors that consult it.
* Host-side notifications (`begin_task_run`, `emit_step_progress`,
  `end_task_run`, progress steps) have no observable effect on the data
  modelled here and are not represented.
-/

/-- Value of a decimal digit character, `none` on non-digits. -/
def digitVal (c : Char) : Option Nat :=
  if c.isDigit then some (c.toNat - 48) else none

/-- Value of a nonempty all-digit character list, `none` otherwise. -/
def digitsVal (cs : List Char) : Option Nat :=
  if cs.isEmpty then none
  else cs.foldl (fun acc c => acc.bind (fun a => (digitVal c).map (fun d => a * 10 + d))) (some 0)

/-- Python `int(s)` on a string: optional sign followed by digits.
(The tolerance of CPython's `int` for surrounding whitespace and for
underscores between digits is not modelled; no host-supplied value here
uses it.) -/
def parseInt (s : String) : Option Int :=
  match s.toList with
  | '-' :: rest => (digitsVal rest).map (fun n => -(n : Int))
  | '+' :: rest => (digitsVal rest).map (fun n => (n : Int))
  | cs => (digitsVal cs).map (fun n => (n : Int))

/-- The exact rational `m / 10 ^ k`: the value of the decimal literal with
mantissa `m` and `k` fractional digits. -/
def pyFloat (m : Int) (k : Nat) : ℚ := Rat.divInt m ((10 : Int) ^ k)

/-- Python `float` parsing of an unsigned decimal literal: digits with an
optional fractional part ("640", "1.", ".5", "0.25").  Exponents,
infinities and NaN are not modelled; no host-supplied value uses them. -/
def parseUnsignedFloat (cs : List Char) : Option ℚ :=
  let ip := cs.takeWhile (fun c => c ≠ '.')
  let rest := cs.dropWhile (fun c => c ≠ '.')
  match rest with
  | [] => (digitsVal ip).map (fun n => pyFloat (n : Int) 0)
  | '.' :: fp =>
    if ip.isEmpty && fp.isEmpty then none
    else
      (if ip.isEmpty then some 0 else digitsVal ip).bind (fun ipn =>
        (if fp.isEmpty then some 0 else digitsVal fp).map (fun fpn =>
          pyFloat ((ipn * 10 ^ fp.length + fpn : Nat) : Int) fp.length))
  | _ => none

/-- Python `float(s)` on a string: optional sign, then an unsigned literal. -/
def parseFloat (s : String) : Option ℚ :=
  match s.toList with
  | '-' :: rest => (parseUnsignedFloat rest).map (fun q => Rat.divInt (-q.num) (q.den : Int))
  | '+' :: rest => parseUnsignedFloat rest
  | cs => parseUnsignedFloat cs

/-- ASCII lower-casing of one character. -/
def lowerChar (c : Char) : Char :=
  if 'A' ≤ c ∧ c ≤ 'Z' then Char.ofNat (c.toNat + 32) else c

/-- ASCII lower-casing of a string. -/
def lowerString (s : String) : String :=
  String.mk (s.toList.map lowerChar)

/-- `ikomia.utils.strtobool`, with the `distutils` token sets: the
lower-cased value must be one of "y", "yes", "t", "true", "on", "1"
(true) or "n", "no", "f", "false", "off", "0" (false); anything else
raises, modelled as `none`. -/
def strtobool (s : String) : Option Bool :=
  match lowerString s with
  | "y" | "yes" | "t" | "true" | "on" | "1" => some true
  | "n" | "no" | "f" | "false" | "off" | "0" => some false
  | _ => none

/-- Python `str()` of a bool: "True" / "False". -/
def pyBoolStr (b : Bool) : String := if b then "True" else "False"

/-- Python `str()` of an int. -/
def pyIntStr (n : Int) : String := toString n

/-- Decimal digits of the fraction `r / d` (with `r < d`), most significant
first, stopping when the remainder is zero; `fuel` bounds the recursion. -/
def fracDigitsAux : Nat → Nat → Nat → List Nat
  | 0, _, _ => []
  | Nat.succ fuel, r, d =>
    if r = 0 then []
    else (r * 10) / d :: fracDigitsAux fuel ((r * 10) % d) d

/-- Python `str()` of a float holding the exact rational `q`: sign, integer
part, '.', and the fractional digits (at least one, "640.0" style).  For
every value a float can hold the decimal expansion terminates, and `q.den`
steps of `fracDigitsAux` always suffice for a terminating expansion. -/
def pyFloatStr (q : ℚ) : String :=
  let sgn := if q.num < 0 then "-" else ""
  let n := q.num.natAbs
  let d := q.den
  let ds := fracDigitsAux d (n % d) d
  sgn ++ toString (n / d) ++ "." ++
    (if ds.isEmpty then "0" else String.join (ds.map (fun k => toString k)))

/-- Python `int()` applied to a float value: truncation toward zero. -/
def pyInt (q : ℚ) : Int :=
  if q.num < 0 then -((q.num.natAbs / q.den : Nat) : Int)
  else ((q.num.natAbs / q.den : Nat) : Int)

/-- The host's string-keyed parameter dictionary. -/
abbrev PMap := List (String × String)

/-- `InferYoloV8Param`: the typed parameter fields of the plugin. -/
structure InferYoloV8Param where
  model_name : String
  cuda : Bool
  input_size : Int
  conf_thres : ℚ
  iou_thres : ℚ
  update : Bool
  model_weight_file : String
deriving DecidableEq

/-- `InferYoloV8Param.__init__`: the documented defaults.  `cudaAvailable`
stands for `torch.cuda.is_available()`.  `pyFloat 25 2` is 0.25 and
`pyFloat 7 1` is 0.7. -/
def InferYoloV8Param.init (cudaAvailable : Bool) : InferYoloV8Param where
  model_name := "yolov8m"
  cuda := cudaAvailable
  input_size := 640
  conf_thres := pyFloat 25 2
  iou_thres := pyFloat 7 1
  update := false
  model_weight_file := ""

/-- `InferYoloV8Param.set_values(param_map)`: reads the six keys the method
accesses (`update` is never read), converts each with the conversion the
source applies (`str`, `strtobool`, `int`, `float`, `float`, `str`), and on
success overwrites every field, forcing `update := True`.  Any key error or
conversion error makes the whole call fail (`none`). -/
def InferYoloV8Param.set_values (param_map : PMap) (_p : InferYoloV8Param) :
    Option InferYoloV8Param :=
  match param_map.lookup "model_name", (param_map.lookup "cuda").bind strtobool,
        (param_map.lookup "input_size").bind parseInt,
        (param_map.lookup "conf_thres").bind parseFloat,
        (param_map.lookup "iou_thres").bind parseFloat,
        param_map.lookup "model_weight_file" with
  | some mn, some cu, some n, some cf, some io, some wf =>
      some { model_name := mn, cuda := cu, input_size := n, conf_thres := cf,
             iou_thres := io, update := true, model_weight_file := wf }
  | _, _, _, _, _, _ => none

/-- `InferYoloV8Param.get_values()`: serializes every field back to a string
with Python `str()`, in the order of the source. -/
def InferYoloV8Param.get_values (p : InferYoloV8Param) : PMap :=
  [("model_name", p.model_name),
   ("cuda", pyBoolStr p.cuda),
   ("input_size", pyIntStr p.input_size),
   ("conf_thres", pyFloatStr p.conf_thres),
   ("iou_thres", pyFloatStr p.iou_thres),
   ("update", pyBoolStr p.update),
   ("model_weight_file", p.model_weight_file)]

/-- The compute device selected by `torch.device(...)`. -/
inductive Device where
  | cpu
  | cuda
deriving DecidableEq

/-- An `ultralytics.YOLO` detector instance, identified by the weights
argument its constructor received. -/
structure YOLO where
  weights : String
deriving DecidableEq

/-- The keyword arguments `run` passes to `model.predict` (the image is
passed separately). -/
structure PredictArgs where
  save : Bool
  imgsz : Int
  conf : ℚ
  iou : ℚ
  half : Bool
  device : Device
deriving DecidableEq

/-- What the detector returns: the class-name list (`results[0].names`
values) and the parallel box / confidence / class-index tensors of
`results[0].boxes`.  Boxes are `xyxy` corner quadruples; class indices
arrive as float scalars, as in the source, where they pass through
`int(cls)`. -/
structure PredictResult where
  names : List String
  boxes : List (ℚ × ℚ × ℚ × ℚ)
  confs : List ℚ
  cls : List ℚ
deriving DecidableEq

/-- One detection as handed to the host sink
`add_object(i, int(cls), float(conf), float(x1), float(y1), float(w), float(h))`. -/
structure Detection where
  index : Nat
  class_id : Int
  confidence : ℚ
  x : ℚ
  y : ℚ
  width : ℚ
  height : ℚ
deriving DecidableEq

/-- The detection loop of `run`: `zip` the three tensors, enumerate, and
convert each `(x1, y1, x2, y2)` box to a top-left/width/height detection. -/
def processDetections (boxes : List (ℚ × ℚ × ℚ × ℚ)) (confidences : List ℚ)
    (class_idx : List ℚ) : List Detection :=
  ((boxes.zip (confidences.zip class_idx)).enum).map (fun e =>
    match e with
    | (i, (x1, y1, x2, y2), conf, cls) =>
      { index := i, class_id := pyInt cls, confidence := conf,
        x := x1, y := y1, width := x2 - x1, height := y2 - y1 })

/-- The mutable state of an `InferYoloV8` task, together with the host-owned
data it drives: `output` is the detection output collection (output 1) and
`classes` the class-name list it publishes via `set_names`. -/
structure InferYoloV8 where
  device : Device
  classes : Option (List String)
  model : Option YOLO
  half : Bool
  model_name : Option String
  param : InferYoloV8Param
  output : List Detection
deriving DecidableEq

/-- `InferYoloV8.__init__`: fields as initialized by the constructor; the
parameter object is the given one (deep-copied, hence by value) or a fresh
default. -/
def InferYoloV8.init (param : Option InferYoloV8Param) (cudaAvailable : Bool) :
    InferYoloV8 where
  device := Device.cpu
  classes := none
  model := none
  half := false
  model_name := none
  param := param.getD (InferYoloV8Param.init cudaAvailable)
  output := []

/-- The reload condition of `run`: `param.update or self.model is None`. -/
def InferYoloV8.reloadNeeded (t : InferYoloV8) : Bool :=
  t.param.update || t.model.isNone

/-- `self.get_output(1).clear_data()`: the detection output is emptied. -/
def InferYoloV8.clearOutput (t : InferYoloV8) : InferYoloV8 :=
  { t with output := [] }

/-- The conditional model-loading block of `run`.  When a reload happens it
selects the device and half-precision mode from the GPU flag, constructs
the `YOLO` model from the explicit weight file if that string is nonempty
and otherwise from the preset name with a ".pt" suffix, and clears the
dirty flag.  The second component counts the `YOLO` constructor calls. -/
def InferYoloV8.loadStep (t : InferYoloV8) : InferYoloV8 × Nat :=
  if t.reloadNeeded then
    ({ t with
        device := if t.param.cuda then Device.cuda else Device.cpu,
        half := t.param.cuda,
        model := some (if t.param.model_weight_file ≠ "" then
            YOLO.mk t.param.model_weight_file
          else
            YOLO.mk (t.param.model_name ++ ".pt")),
        param := { t.param with update := false } }, 1)
  else (t, 0)

/-- The keyword arguments of the `model.predict` call in `run`. -/
def InferYoloV8.predictArgs (t : InferYoloV8) : PredictArgs where
  save := false
  imgsz := t.param.input_size
  conf := t.param.conf_thres
  iou := t.param.iou_thres
  half := t.half
  device := t.device

/-- `InferYoloV8.run`: clear the detection output, conditionally reload the
model, predict on the input image, publish the class names, and append one
detection per returned triple.  `predict` is the external detector oracle;
the second component counts model loads performed by this invocation.
(The `model.getD (YOLO.mk "")` default is unreachable: after `loadStep`
the model is always present.) -/
def InferYoloV8.run {Img : Type} (predict : YOLO → Img → PredictArgs → PredictResult)
    (img : Img) (t : InferYoloV8) : InferYoloV8 × Nat :=
  let t1 := t.clearOutput
  let t2 := t1.loadStep.1
  let loads := t1.loadStep.2
  let r := predict (t2.model.getD (YOLO.mk "")) img t2.predictArgs
  ({ t2 with
      classes := some r.names,
      output := processDetections r.boxes r.confs r.cls }, loads)

/-- The current values of the widget's form controls: model combo box text,
CUDA check box, input-size spinner, and the two threshold spinners. -/
structure InferYoloV8Widget where
  combo_model : String
  check_cuda : Bool
  spin_input_size : Int
  spin_conf_thres : ℚ
  spin_iou_thres : ℚ
deriving DecidableEq

/-- `InferYoloV8Widget.on_apply`: copy each control value into the bound
parameter object, set the dirty flag, and emit the apply signal carrying
those parameters.  Returns (new parameter object, emitted payload). -/
def InferYoloV8Widget.on_apply (w : InferYoloV8Widget) (parameters : InferYoloV8Param) :
    InferYoloV8Param × InferYoloV8Param :=
  let parameters' := { parameters with
    model_name := w.combo_model,
    cuda := w.check_cuda,
    input_size := w.spin_input_size,
    conf_thres := w.spin_conf_thres,
    iou_thres := w.spin_iou_thres,
    update := true }
  (parameters', parameters')

/-- Claim-side predicate, following the spec's words for C3: some key among
the seven listed ones (`update` included) is absent from the mapping or its
value is unparsable as the target field type (`update`'s target type is
boolean). -/
def requiredKeyAbsentOrUnparsable7 (m : PMap) : Bool :=
  (m.lookup "model_name").isNone ||
  ((m.lookup "cuda").bind strtobool).isNone ||
  ((m.lookup "input_size").bind parseInt).isNone ||
  ((m.lookup "conf_thres").bind parseFloat).isNone ||
  ((m.lookup "iou_thres").bind parseFloat).isNone ||
  ((m.lookup "update").bind strtobool).isNone ||
  (m.lookup "model_weight_file").isNone

/-- The corrected failure condition: some key among the six keys
`set_values` actually reads is absent or unparsable (`update` dropped). -/
def requiredKeyAbsentOrUnparsable6 (m : PMap) : Bool :=
  (m.lookup "model_name").isNone ||
  ((m.lookup "cuda").bind strtobool).isNone ||
  ((m.lookup "input_size").bind parseInt).isNone ||
  ((m.lookup "conf_thres").bind parseFloat).isNone ||
  ((m.lookup "iou_thres").bind parseFloat).isNone ||
  (m.lookup "model_weight_file").isNone

/-- The keys `set_values` reads from the mapping. -/
def readKeys : List String :=
  ["model_name", "cuda", "input_size", "conf_thres", "iou_thres", "model_weight_file"]

/-- Python dictionary equality for string maps: the same keys hold the same
values (order-insensitive). -/
def pmapEqProp (a b : PMap) : Prop :=
  ∀ k : String, a.lookup k = b.lookup k

/-- A parameter dictionary with every entry the value's canonical `str()`
rendering, except that `"update"` maps to "True". -/
def setUpdateTrue (m : PMap) : PMap :=
  m.map (fun e => if e.1 == "update" then (e.1, "True") else e)

/-- Claim-side expected output for C2: one detection per (box, confidence,
class) triple, in order, indexed from `i`, class converted to int,
box corners converted to x / y / width := x2 - x1 / height := y2 - y1. -/
def expectedDetections : Nat → List (ℚ × ℚ × ℚ × ℚ) → List ℚ → List ℚ → List Detection
  | i, (x1, y1, x2, y2) :: bs, conf :: cs, cls :: ks =>
    { index := i, class_id := pyInt cls, confidence := conf,
      x := x1, y := y1, width := x2 - x1, height := y2 - y1 }
      :: expectedDetections (i + 1) bs cs ks
  | _, _, _, _ => []

/-- Changing the model selection and setting the dirty flag, as the spec's
reload scenario (c) describes. -/
def InferYoloV8.setDirty (mn mw : String) (t : InferYoloV8) : InferYoloV8 :=
  { t with param := { t.param with
      model_name := mn, model_weight_file := mw, update := true } }

/-- A well-formed parameter dictionary (every value canonical) whose
`update` entry is "False". -/
def exMapUpdateFalse : PMap :=
  [("model_name", "yolov8m"), ("cuda", "True"), ("input_size", "640"),
   ("conf_thres", "0.25"), ("iou_thres", "0.7"), ("update", "False"),
   ("model_weight_file", "")]

/-- The same dictionary with an `update` entry that no boolean parser
accepts. -/
def exMapUpdateBad : PMap :=
  [("model_name", "yolov8m"), ("cuda", "True"), ("input_size", "640"),
   ("conf_thres", "0.25"), ("iou_thres", "0.7"), ("update", "banana"),
   ("model_weight_file", "")]

/-- The parameter object produced by `set_values` on either dictionary
above. -/
def paramAfterSet : InferYoloV8Param where
  model_name := "yolov8m"
  cuda := true
  input_size := 640
  conf_thres := pyFloat 25 2
  iou_thres := pyFloat 7 1
  update := true
  model_weight_file := ""

theorem get_values_lookup_model_name (q : InferYoloV8Param) :
    (q.get_values).lookup "model_name" = some q.model_name := rfl

theorem get_values_lookup_cuda (q : InferYoloV8Param) :
    (q.get_values).lookup "cuda" = some (pyBoolStr q.cuda) := rfl

theorem get_values_lookup_input_size (q : InferYoloV8Param) :
    (q.get_values).lookup "input_size" = some (pyIntStr q.input_size) := rfl

theorem get_values_lookup_conf_thres (q : InferYoloV8Param) :
    (q.get_values).lookup "conf_thres" = some (pyFloatStr q.conf_thres) := rfl

theorem get_values_lookup_iou_thres (q : InferYoloV8Param) :
    (q.get_values).lookup "iou_thres" = some (pyFloatStr q.iou_thres) := rfl

theorem get_values_lookup_update (q : InferYoloV8Param) :
    (q.get_values).lookup "update" = some (pyBoolStr q.update) := rfl

theorem get_values_lookup_model_weight_file (q : InferYoloV8Param) :
    (q.get_values).lookup "model_weight_file" = some q.model_weight_file := rfl

theorem strtobool_pyBoolStr (b : Bool) : strtobool (pyBoolStr b) = some b := by
  cases b <;> rfl

/-- C5: default construction of the parameter object yields model name
"yolov8m" (the medium preset), input size 640, confidence threshold 0.25,
IoU threshold 0.7, the GPU flag equal to CUDA availability, dirty flag
False, and an empty custom weight-file path. -/
theorem default_param_values (cudaAvailable : Bool) :
    (InferYoloV8Param.init cudaAvailable).model_name = "yolov8m" ∧
    (InferYoloV8Param.init cudaAvailable).cuda = cudaAvailable ∧
    (InferYoloV8Param.init cudaAvailable).input_size = 640 ∧
    (InferYoloV8Param.init cudaAvailable).conf_thres = (0.25 : ℚ) ∧
    (InferYoloV8Param.init cudaAvailable).iou_thres = (0.7 : ℚ) ∧
    (InferYoloV8Param.init cudaAvailable).update = false ∧
    (InferYoloV8Param.init cudaAvailable).model_weight_file = "" := by
  refine ⟨rfl, rfl, rfl, ?_, ?_, rfl, rfl⟩ <;>
    · simp only [InferYoloV8Param.init, pyFloat, Rat.divInt_eq_div]
      norm_num

/-- C7: `run` clears the host-owned detection output at the start, its
result does not depend on the previous content of that output, and the
output afterwards holds exactly the detections produced from the current
invocation's prediction. -/
theorem run_output_is_current_invocation {Img : Type}
    (predict : YOLO → Img → PredictArgs → PredictResult) (img : Img)
    (t : InferYoloV8) (o : List Detection) :
    (t.clearOutput.output = []) ∧
    (({ t with output := o } : InferYoloV8).run predict img = t.run predict img) ∧
    ((t.run predict img).1.output =
      let r := predict (t.clearOutput.loadStep.1.model.getD (YOLO.mk "")) img
        t.clearOutput.loadStep.1.predictArgs
      processDetections r.boxes r.confs r.cls) :=
  ⟨rfl, rfl, rfl⟩

/-- C8: the widget's apply action copies every form control's current value
into the bound parameter object, sets the dirty flag, and emits the apply
signal carrying exactly those parameters. -/
theorem on_apply_applies_controls (w : InferYoloV8Widget) (p : InferYoloV8Param) :
    ((w.on_apply p).1.model_name = w.combo_model) ∧
    ((w.on_apply p).1.cuda = w.check_cuda) ∧
    ((w.on_apply p).1.input_size = w.spin_input_size) ∧
    ((w.on_apply p).1.conf_thres = w.spin_conf_thres) ∧
    ((w.on_apply p).1.iou_thres = w.spin_iou_thres) ∧
    ((w.on_apply p).1.update = true) ∧
    ((w.on_apply p).2 = (w.on_apply p).1) :=
  ⟨rfl, rfl, rfl, rfl, rfl, rfl, rfl⟩

/-- C10: the apply action leaves `model_weight_file` unchanged; the new
parameter object differs from the old one only in the five copied control
fields and the dirty flag. -/
theorem on_apply_preserves_weight_file (w : InferYoloV8Widget) (p : InferYoloV8Param) :
    ((w.on_apply p).1.model_weight_file = p.model_weight_file) ∧
    ((w.on_apply p).1 = { p with
        model_name := w.combo_model,
        cuda := w.check_cuda,
        input_size := w.spin_input_size,
        conf_thres := w.spin_conf_thres,
        iou_thres := w.spin_iou_thres,
        update := true }) :=
  ⟨rfl, rfl⟩

theorem processDetections_eq_expected (n : Nat) (bs : List (ℚ × ℚ × ℚ × ℚ))
    (cs ks : List ℚ) :
    ((bs.zip (cs.zip ks)).enumFrom n).map (fun e =>
      match e with
      | (i, (x1, y1, x2, y2), conf, cls) =>
        { index := i, class_id := pyInt cls, confidence := conf,
          x := x1, y := y1, width := x2 - x1,
          height := y2 - y1 : Detection }) = expectedDetections n bs cs ks := by
  induction bs generalizing n cs ks with
  | nil => rfl
  | cons b bs ih =>
    obtain ⟨x1, y1, x2, y2⟩ := b
    cases cs with
    | nil => rfl
    | cons c cs =>
      cases ks with
      | nil => rfl
      | cons k ks =>
        simpa [List.zip, List.enumFrom, expectedDetections] using ih (n + 1) cs ks

/-- C2: for every sequence of (box, confidence, class) triples returned by
the detector, `run` appends one detection per triple to the output, in the
detector's order, with index equal to position, class converted to int,
confidence kept, and the corner box converted to x, y, width = x2 - x1,
height = y2 - y1. -/
theorem run_output_mapping {Img : Type}
    (predict : YOLO → Img → PredictArgs → PredictResult) (img : Img)
    (t : InferYoloV8) :
    (t.run predict img).1.output =
      (let r := predict (t.clearOutput.loadStep.1.model.getD (YOLO.mk "")) img
        t.clearOutput.loadStep.1.predictArgs
      expectedDetections 0 r.boxes r.confs r.cls) := by
  show processDetections _ _ _ = _
  rw [processDetections, List.enum]
  exact processDetections_eq_expected 0 _ _ _

/-- C4: on each `run` invocation the detector is (re)loaded exactly when
the dirty flag is set or no model is loaded yet; after a run the dirty
flag is clear and a model is present, so a second run with unchanged
parameters performs no load, while changing the model selection together
with setting the dirty flag forces exactly one load on the next run, after
which the flag is clear again. -/
theorem run_reload_invariant {Img Img' : Type}
    (predict : YOLO → Img → PredictArgs → PredictResult)
    (predict' : YOLO → Img' → PredictArgs → PredictResult)
    (img : Img) (img' : Img') (t : InferYoloV8) (mn mw : String) :
    ((t.run predict img).2 = if t.param.update || t.model.isNone then 1 else 0) ∧
    ((t.run predict img).1.param.update = false) ∧
    ((t.run predict img).1.model.isSome = true) ∧
    (((t.run predict img).1.run predict' img').2 = 0) ∧
    ((((t.run predict img).1.setDirty mn mw).run predict' img').2 = 1) ∧
    ((((t.run predict img).1.setDirty mn mw).run predict' img').1.param.update = false) := by
  obtain ⟨dev, cl, mdl, hf, mn0, p, out⟩ := t
  obtain ⟨pmn, pcu, pis, pcf, pio, pud, pwf⟩ := p
  cases pud <;> cases mdl <;>
    simp [InferYoloV8.run, InferYoloV8.loadStep, InferYoloV8.reloadNeeded,
      InferYoloV8.clearOutput, InferYoloV8.setDirty]

/-- C6: when `run` reloads the detector, the device is the GPU device iff
the GPU flag is set (otherwise CPU), half precision is enabled iff the GPU
flag is set, and the weights are the explicit weight-file path when that
path is nonempty, otherwise the preset model name with a ".pt" suffix. -/
theorem run_reload_configuration {Img : Type}
    (predict : YOLO → Img → PredictArgs → PredictResult) (img : Img)
    (t : InferYoloV8) (h : t.reloadNeeded = true) :
    ((t.run predict img).1.device =
      (if t.param.cuda then Device.cuda else Device.cpu)) ∧
    ((t.run predict img).1.half = t.param.cuda) ∧
    ((t.run predict img).1.model =
      some (if t.param.model_weight_file ≠ "" then
          YOLO.mk t.param.model_weight_file
        else
          YOLO.mk (t.param.model_name ++ ".pt"))) := by
  have hc : (t.param.update || t.model.isNone) = true := h
  simp [InferYoloV8.run, InferYoloV8.loadStep, InferYoloV8.reloadNeeded,
    InferYoloV8.clearOutput, hc]

theorem run_reload_configuration_witness :
    ((InferYoloV8.init none true).reloadNeeded = true) ∧
    (((InferYoloV8.init none true).run
        (fun _ (_ : Unit) _ => PredictResult.mk [] [] [] []) ()).1.device = Device.cuda) ∧
    (((InferYoloV8.init none true).run
        (fun _ (_ : Unit) _ => PredictResult.mk [] [] [] []) ()).1.half = true) ∧
    (((InferYoloV8.init none true).run
        (fun _ (_ : Unit) _ => PredictResult.mk [] [] [] []) ()).1.model =
      some (YOLO.mk "yolov8m.pt")) := by
  have h := run_reload_configuration
    (fun _ (_ : Unit) _ => PredictResult.mk [] [] [] []) ()
    (InferYoloV8.init none true) (by decide)
  exact ⟨by decide, by rw [h.1]; decide, by rw [h.2.1]; decide, by rw [h.2.2]; decide⟩

/-- C3 counterexample: a mapping whose `update` value parses as no boolean
(so the claim's right-hand side holds) on which `set_values` nevertheless
succeeds — the claimed equivalence is false at this input, because
`set_values` never reads the `update` key. -/
theorem set_values_update_key_counterexample :
    ¬ (((InferYoloV8Param.set_values exMapUpdateBad (InferYoloV8Param.init true)).isNone = true) ↔
       (requiredKeyAbsentOrUnparsable7 exMapUpdateBad = true)) := by
  decide

/-- C3 (amended): `set_values` fails exactly when one of the six keys it
reads — model_name, cuda, input_size, conf_thres, iou_thres,
model_weight_file — is absent from the mapping or unparsable as the
target field type; the `update` key is never consulted. -/
theorem set_values_failure_condition (m : PMap) (p : InferYoloV8Param) :
    (InferYoloV8Param.set_values m p).isNone = requiredKeyAbsentOrUnparsable6 m := by
  unfold InferYoloV8Param.set_values requiredKeyAbsentOrUnparsable6
  rcases m.lookup "model_name" with _ | mn <;>
  rcases (m.lookup "cuda").bind strtobool with _ | cu <;>
  rcases (m.lookup "input_size").bind parseInt with _ | n <;>
  rcases (m.lookup "conf_thres").bind parseFloat with _ | cf <;>
  rcases (m.lookup "iou_thres").bind parseFloat with _ | io <;>
  rcases m.lookup "model_weight_file" with _ | wf <;>
  rfl

/-- C9: `set_values` always leaves the dirty flag True on success, and its
result depends on the mapping only through the six keys it reads — in
particular any `update` entry of the mapping is ignored. -/
theorem set_values_forces_update :
    (∀ (m : PMap) (p p' : InferYoloV8Param),
        InferYoloV8Param.set_values m p = some p' → p'.update = true) ∧
    (∀ (m₁ m₂ : PMap) (p : InferYoloV8Param),
        (∀ k ∈ readKeys, m₁.lookup k = m₂.lookup k) →
        InferYoloV8Param.set_values m₁ p = InferYoloV8Param.set_values m₂ p) := by
  constructor
  · intro m p p' h
    unfold InferYoloV8Param.set_values at h
    revert h
    rcases m.lookup "model_name" with _ | mn <;>
    rcases (m.lookup "cuda").bind strtobool with _ | cu <;>
    rcases (m.lookup "input_size").bind parseInt with _ | n <;>
    rcases (m.lookup "conf_thres").bind parseFloat with _ | cf <;>
    rcases (m.lookup "iou_thres").bind parseFloat with _ | io <;>
    rcases m.lookup "model_weight_file" with _ | wf <;>
    intro h <;> first
      | (injection h with h2; subst h2; rfl)
      | injection h
  · intro m₁ m₂ p h
    unfold InferYoloV8Param.set_values
    rw [h "model_name" (by decide), h "cuda" (by decide), h "input_size" (by decide),
      h "conf_thres" (by decide), h "iou_thres" (by decide),
      h "model_weight_file" (by decide)]

theorem set_values_forces_update_witness :
    (paramAfterSet.update = true) ∧
    (InferYoloV8Param.set_values exMapUpdateFalse (InferYoloV8Param.init true) =
      InferYoloV8Param.set_values exMapUpdateBad (InferYoloV8Param.init true)) :=
  ⟨set_values_forces_update.1 exMapUpdateFalse (InferYoloV8Param.init true)
      paramAfterSet (by decide),
   set_values_forces_update.2 exMapUpdateFalse exMapUpdateBad
      (InferYoloV8Param.init true) (by decide)⟩

/-- C1 counterexample: a well-formed dictionary (all seven keys present and
parsable, every value canonical) whose `update` entry is "False".
`set_values` succeeds, but the dictionary returned by `get_values`
afterwards maps `update` to "True", so the round-trip does not return a
dictionary equal to the input. -/
theorem roundtrip_update_counterexample :
    (requiredKeyAbsentOrUnparsable7 exMapUpdateFalse = false) ∧
    (InferYoloV8Param.set_values exMapUpdateFalse (InferYoloV8Param.init true) =
      some paramAfterSet) ∧
    ¬ pmapEqProp paramAfterSet.get_values exMapUpdateFalse := by
  refine ⟨by decide, by decide, fun h => ?_⟩
  have h1 := h "update"
  rw [get_values_lookup_update] at h1
  exact absurd h1 (by decide)

/-- C1 (amended): for a well-formed dictionary in canonical form — here any
dictionary produced by `get_values`, provided the numeric fields render and
re-parse to themselves — `set_values` followed by `get_values` returns the
same dictionary except that its `update` entry is always "True". -/
theorem set_get_values_roundtrip (p q : InferYoloV8Param)
    (hsize : parseInt (pyIntStr q.input_size) = some q.input_size)
    (hconf : parseFloat (pyFloatStr q.conf_thres) = some q.conf_thres)
    (hiou : parseFloat (pyFloatStr q.iou_thres) = some q.iou_thres) :
    (InferYoloV8Param.set_values q.get_values p).map InferYoloV8Param.get_values =
      some (setUpdateTrue q.get_values) := by
  unfold InferYoloV8Param.set_values
  rw [get_values_lookup_model_name, get_values_lookup_cuda, get_values_lookup_input_size,
    get_values_lookup_conf_thres, get_values_lookup_iou_thres,
    get_values_lookup_model_weight_file]
  simp only [Option.some_bind]
  rw [strtobool_pyBoolStr, hsize, hconf, hiou]
  rfl

theorem set_get_values_roundtrip_witness :
    (parseInt (pyIntStr (InferYoloV8Param.init true).input_size) =
      some (InferYoloV8Param.init true).input_size) ∧
    (parseFloat (pyFloatStr (InferYoloV8Param.init true).conf_thres) =
      some (InferYoloV8Param.init true).conf_thres) ∧
    (parseFloat (pyFloatStr (InferYoloV8Param.init true).iou_thres) =
      some (InferYoloV8Param.init true).iou_thres) ∧
    ((InferYoloV8Param.set_values (InferYoloV8Param.init true).get_values
        (InferYoloV8Param.init false)).map InferYoloV8Param.get_values =
      some (setUpdateTrue (InferYoloV8Param.init true).get_values)) :=
  ⟨by decide, by decide, by decide,
   set_get_values_roundtrip (InferYoloV8Param.init false) (InferYoloV8Param.init true)
     (by decide) (by decide) (by decide)⟩
